import Mathlib

/-! Verification of the pond pump controller core (pump decision engine, mode
state machine, NVS persistence, solar calculator, UK DST rule, scheduler
caching) against its specification.  Numeric C types are embedded as
follows: `int` and the minute-of-day quantities as `Int`, `unsigned long`
epoch values as `Nat`, `float` temperature values as `ℚ`, and the `float`
trigonometric pipeline of `calculateSunTimes` as `ℝ`.
-/

namespace PondPump

/-- The `PumpMode` enum (`MODE_ON = 1, MODE_OFF = 2, MODE_AUTO = 3,
`MODE_AUTO_EXTEND = 4`). -/
inductive PumpMode where
  | MODE_ON
  | MODE_OFF
  | MODE_AUTO
  | MODE_AUTO_EXTEND
deriving DecidableEq, Repr

open PumpMode

/-- Numeric value of each `PumpMode` enum constant, as assigned in the
source (`MODE_ON = 1`, ..., `MODE_AUTO_EXTEND = 4`). -/
def pumpModeValue : PumpMode → Nat
  | MODE_ON => 1
  | MODE_OFF => 2
  | MODE_AUTO => 3
  | MODE_AUTO_EXTEND => 4

/-- A temperature sample: the pair of globals `currentTemperature` and
`tempValid` of the source. -/
structure TemperatureSample where
  valueCelsius : ℚ
  valid : Bool
deriving DecidableEq, Repr

/-- Function `shouldPumpBeOn`, translated from the source.  The frost lockout is the
single test `if (!(tempC >= 3.0)) return false;`; it inspects only the
numeric temperature argument.  The `switch` covers all four constructors,
so the trailing `return false` of the C function is unreachable. -/
def shouldPumpBeOn (mode : PumpMode) (isDaytimeUTC : Bool)
    (nowMinutesUTC sunsetUTCminutes : Int) (tempC : ℚ) : Bool :=
  if ¬ (tempC ≥ 3) then false
  else
    match mode with
    | MODE_ON => true
    | MODE_OFF => false
    | MODE_AUTO => isDaytimeUTC
    | MODE_AUTO_EXTEND =>
        isDaytimeUTC || decide (nowMinutesUTC < sunsetUTCminutes + 60)

/-- The daytime test of the scheduler loop:
`nowMinutesUTC >= sunriseMinutesUTC && nowMinutesUTC < sunsetMinutesUTC`. -/
def isDaytime (nowMinutesUTC sunriseMinutesUTC sunsetMinutesUTC : Int) : Bool :=
  decide (nowMinutesUTC ≥ sunriseMinutesUTC) &&
    decide (nowMinutesUTC < sunsetMinutesUTC)

/-- The mutable state touched by the mode state machine: the two-element
array `pumpMode[2]` and the two NVS bytes stored by `savePumpModes` under
the keys mode1 and mode2. -/
structure ControllerState where
  pumpMode : Fin 2 → PumpMode
  prefsMode1 : Nat
  prefsMode2 : Nat

/-- Function `savePumpModes`: writes both channels' current modes to NVS as bytes. -/
def savePumpModes (s : ControllerState) : ControllerState :=
  { s with
    prefsMode1 := pumpModeValue (s.pumpMode 0)
    prefsMode2 := pumpModeValue (s.pumpMode 1) }

/-- The `switch` inside `cycleMode`: the successor of each mode in the
fixed cycle ON, OFF, AUTO, AUTO_EXTEND, ON, ... -/
def nextMode : PumpMode → PumpMode
  | MODE_ON => MODE_OFF
  | MODE_OFF => MODE_AUTO
  | MODE_AUTO => MODE_AUTO_EXTEND
  | MODE_AUTO_EXTEND => MODE_ON

/-- Function `cycleMode(i)`: advances channel `i` to the next mode in the cycle and
immediately persists both modes via `savePumpModes`. -/
def cycleMode (i : Fin 2) (s : ControllerState) : ControllerState :=
  savePumpModes
    { s with pumpMode := Function.update s.pumpMode i (nextMode (s.pumpMode i)) }

/-- The C enum cast `(PumpMode)m` applied to a byte that the caller has
already validated to lie in 1..4; the catch-all branch is unreachable
after `loadPumpModes`' range check. -/
def pumpModeOfByte : Nat → PumpMode
  | 1 => MODE_ON
  | 2 => MODE_OFF
  | 3 => MODE_AUTO
  | 4 => MODE_AUTO_EXTEND
  | _ => MODE_AUTO

/-- Function `loadPumpModes`, acting on the two bytes read from NVS: any byte
outside `MODE_ON..MODE_AUTO_EXTEND` (1..4) is replaced by `MODE_AUTO` (3)
before the enum cast, independently per channel. -/
def loadPumpModes (m1 m2 : Nat) : PumpMode × PumpMode :=
  let m1v := if m1 < 1 || m1 > 4 then 3 else m1
  let m2v := if m2 < 1 || m2 > 4 then 3 else m2
  (pumpModeOfByte m1v, pumpModeOfByte m2v)

/-- The state of the temperature gate: the globals `currentTemperature`
and `tempValid`. -/
structure TempState where
  currentTemperature : ℚ
  tempValid : Bool
deriving DecidableEq, Repr

/-- Boot values of the temperature globals: `currentTemperature = -100.0`,
`tempValid = true`. -/
def initialTempState : TempState :=
  { currentTemperature := -100, tempValid := true }

/-- One call of `fetchTemperature`, abstracted over the outcome of the
HTTP-fetch-and-parse collaborator: `some v` when a numeric token was found
(the code then stores it and sets `tempValid = true`), `none` on any
failure (WiFi down, non-success response, marker or number not found; the
code then only clears `tempValid`, leaving `currentTemperature` as it
was). -/
def fetchTemperatureStep (outcome : Option ℚ) (s : TempState) : TempState :=
  match outcome with
  | some v => { currentTemperature := v, tempValid := true }
  | none => { s with tempValid := false }

/-- A sequence of `fetchTemperature` calls with the given outcomes. -/
def runFetches (s : TempState) (outcomes : List (Option ℚ)) : TempState :=
  outcomes.foldl (fun st o => fetchTemperatureStep o st) s

/-- Modelled from the spec: the constant offset of the standard civil
calendar weekday function (Sakamoto's method for the proleptic Gregorian
calendar).  `isUK_DST` obtains the weekday from the C library's `mktime`
(`tm_wday`, 0 = Sunday), which is not part of this repository; the spec
describes it as the standard civil calendar weekday function. -/
def weekdayOffset (m y : Nat) : Nat :=
  let t := [0, 3, 2, 5, 0, 3, 5, 1, 4, 6, 2, 4]
  let yv := if m < 3 then y - 1 else y
  yv + yv / 4 - yv / 100 + yv / 400 + t.getD (m - 1) 0

/-- Modelled from the spec: the standard civil calendar weekday
(0 = Sunday) of day `d`, month `m`, year `y`, as computed by `mktime`. -/
def civilWeekday (d m y : Nat) : Nat :=
  (weekdayOffset m y + d) % 7

/-- The descending scan `for (dd = 31; dd >= 25; dd--)` inside `isUK_DST`:
starting from the default 31, the first day (from the top) whose weekday
is Sunday is selected. -/
def lastSundayOf (m y : Nat) : Nat :=
  if civilWeekday 31 m y = 0 then 31
  else if civilWeekday 30 m y = 0 then 30
  else if civilWeekday 29 m y = 0 then 29
  else if civilWeekday 28 m y = 0 then 28
  else if civilWeekday 27 m y = 0 then 27
  else if civilWeekday 26 m y = 0 then 26
  else if civilWeekday 25 m y = 0 then 25
  else 31

/-- Function `isUK_DST`, translated from the source: false outside March..October,
true strictly inside, last-Sunday boundaries in March (inclusive from the
last Sunday) and October (exclusive from the last Sunday). -/
def isUK_DST (d m y : Nat) : Bool :=
  if m < 3 || m > 10 then false
  else if m > 3 && m < 10 then true
  else if m = 3 then decide (d ≥ lastSundayOf m y)
  else if m = 10 then decide (d < lastSundayOf m y)
  else false

/-- The property the spec assigns to the last-Sunday scan: `ls` is the
highest day in 25..31 whose civil weekday is Sunday.  (Stated with a
bounded quantifier so that concrete instances are decidable.) -/
def IsLastSunday (m y ls : Nat) : Prop :=
  25 ≤ ls ∧ ls ≤ 31 ∧ civilWeekday ls m y = 0 ∧
    ∀ dd < 32, ls < dd → civilWeekday dd m y ≠ 0

/-- The leap-year test used throughout the source:
`y % 4 == 0 && (y % 100 != 0 || y % 400 == 0)`. -/
def isLeapYear (y : Nat) : Bool :=
  y % 4 == 0 && (y % 100 != 0 || y % 400 == 0)

/-- Days in year `y` (`diy` in the loop's year-finding `while`). -/
def daysInYearOf (y : Nat) : Nat :=
  if isLeapYear y then 366 else 365

/-- The month-length array `dim[]`, with February adjusted for leap
years. -/
def monthDays (y : Nat) : List Nat :=
  [31, if isLeapYear y then 29 else 28, 31, 30, 31, 30, 31, 31, 30, 31, 30, 31]

/-- The year-finding `while` loop of `loop()`: starting from 1970,
subtract whole years while enough days remain; returns the year and the
remaining days. -/
def yearSearch (days y : Nat) : Nat × Nat :=
  if days ≥ daysInYearOf y then yearSearch (days - daysInYearOf y) (y + 1)
  else (y, days)
termination_by days
decreasing_by
  have hpos : 365 ≤ daysInYearOf y := by unfold daysInYearOf; split <;> omega
  omega

/-- The month-finding `for` loop of `loop()`: month starts at 1, day
counts are consumed from `dim[]` until fewer days remain than the current
month holds; returns the month and the leftover days. -/
def monthSearch : List Nat → Nat → Nat → Nat × Nat
  | [], month, dleft => (month, dleft)
  | dm :: rest, month, dleft =>
      if dleft ≥ dm then monthSearch rest (month + 1) (dleft - dm)
      else (month, dleft)

/-- The epoch-seconds to (day, month, year) decomposition performed at the
top of `loop()`. -/
def epochToDate (epochTime : Nat) : Nat × Nat × Nat :=
  let days := epochTime / 86400
  let yr := yearSearch days 1970
  let md := monthSearch (monthDays yr.1) 1 yr.2
  (1 + md.2, md.1, yr.1)

/-- Function `refreshPumpOutputs`: recomputes the minute of day from the epoch
time, the daytime flag, and both pump decisions; returns the pair of
relay levels (Pump 1, Pump 2). -/
def refreshPumpOutputs (e : Nat) (mode0 mode1 : PumpMode)
    (sunriseMinutesUTC sunsetMinutesUTC : Int) (tempC : ℚ) : Bool × Bool :=
  let now : Int := ((e / 60) % 1440 : Nat)
  let day := isDaytime now sunriseMinutesUTC sunsetMinutesUTC
  (shouldPumpBeOn mode0 day now sunsetMinutesUTC tempC,
   shouldPumpBeOn mode1 day now sunsetMinutesUTC tempC)

/-- The externally visible outputs of one minute tick: the two relay
levels and the DST-adjusted display quantities (local hour, displayed
sunrise hour, displayed sunset hour). -/
structure TickOutput where
  relay1 : Bool
  relay2 : Bool
  localHour : Nat
  dispSunriseH : Int
  dispSunsetH : Int
deriving DecidableEq, Repr

/-- The minute-rollover branch of `loop()`, sliced to the quantities that
the `isUK_DST` result can reach, with that result abstracted as the
boolean input `dst`: the local hour gets +1 (mod 24) under DST, the
displayed sunrise/sunset hours get +1 (mod 24) under DST, and the relays
are driven by `refreshPumpOutputs`, which never reads `dst`. -/
def minuteTick (dst : Bool) (e : Nat) (mode0 mode1 : PumpMode)
    (sunriseMinutesUTC sunsetMinutesUTC : Int) (tempC : ℚ) : TickOutput :=
  let hr := (e / 3600) % 24
  let hrLocal := if dst then (if hr + 1 ≥ 24 then hr + 1 - 24 else hr + 1) else hr
  let sRiseH := sunriseMinutesUTC / 60
  let sSetH := sunsetMinutesUTC / 60
  let dispRise := if dst then (sRiseH + 1) % 24 else sRiseH
  let dispSet := if dst then (sSetH + 1) % 24 else sSetH
  let relays := refreshPumpOutputs e mode0 mode1 sunriseMinutesUTC sunsetMinutesUTC tempC
  { relay1 := relays.1
    relay2 := relays.2
    localHour := hrLocal
    dispSunriseH := dispRise
    dispSunsetH := dispSet }

/-- The configured latitude (degrees north). -/
noncomputable def latitude : ℝ := 51.8875

/-- The configured longitude (degrees east). -/
noncomputable def longitude : ℝ := -2.0436

/-- The Arduino `DEG_TO_RAD` conversion factor. -/
noncomputable def DEG_TO_RAD : ℝ := Real.pi / 180

/-- The Arduino `RAD_TO_DEG` conversion factor. -/
noncomputable def RAD_TO_DEG : ℝ := 180 / Real.pi

/-- The C `(int)` cast applied to a float value: truncation toward
zero. -/
noncomputable def cIntCast (x : ℝ) : Int :=
  if 0 ≤ x then ⌊x⌋ else ⌈x⌉

/-- The day-of-year accumulation at the top of `calculateSunTimes`:
`N = d`, then `N += dim[i-1]` for the months before `m`. -/
def dayOfYearN (d m y : Nat) : Nat :=
  d + ((monthDays y).take (m - 1)).sum

/-- Function `calculateSunTimes`, translated from the source: single-harmonic
declination, clamped hour-angle cosine, sunrise and sunset in minutes UTC
with negative results wrapped by adding 1440.  The `float` pipeline is
embedded over `ℝ`. -/
noncomputable def calculateSunTimes (d m y : Nat) : Int × Int :=
  let N := dayOfYearN d m y
  let decl : ℝ := 23.45 * Real.sin ((360 / 365) * ((N : ℝ) - 81) * DEG_TO_RAD)
  let latR := latitude * DEG_TO_RAD
  let decR := decl * DEG_TO_RAD
  let cosH0 := -Real.tan latR * Real.tan decR
  let cosH1 := if cosH0 > 1 then 1 else cosH0
  let cosH := if cosH1 < -1 then -1 else cosH1
  let hourAngle := Real.arccos cosH * RAD_TO_DEG
  let sunrise := cIntCast (720 - 4 * (longitude + hourAngle))
  let sunset := cIntCast (720 - 4 * (longitude - hourAngle))
  (if sunrise < 0 then sunrise + 1440 else sunrise,
   if sunset < 0 then sunset + 1440 else sunset)

/-- The globals guarding the daily sun-time recomputation: the cached date
(`lastDay`, `lastMonth`, `lastYear`, initialized to -1) and the cached
daylight window. -/
structure SunCache where
  lastDay : Int
  lastMonth : Int
  lastYear : Int
  sunriseMinutesUTC : Int
  sunsetMinutesUTC : Int

/-- The date-gated block of `loop()`: if the (day, month, year) derived
from the epoch differs from the cached triple, `calculateSunTimes` is
invoked and the cache updated.  The boolean records whether the invocation
happened in this tick. -/
noncomputable def sunTimesStep (e : Nat) (s : SunCache) : SunCache × Bool :=
  let dmy := epochToDate e
  if (dmy.1 : Int) ≠ s.lastDay ∨ (dmy.2.1 : Int) ≠ s.lastMonth ∨
      (dmy.2.2 : Int) ≠ s.lastYear then
    let sun := calculateSunTimes dmy.1 dmy.2.1 dmy.2.2
    ({ lastDay := dmy.1, lastMonth := dmy.2.1, lastYear := dmy.2.2,
       sunriseMinutesUTC := sun.1, sunsetMinutesUTC := sun.2 }, true)
  else (s, false)

/-- A sequence of scheduler ticks observing the given epoch values,
counting how many of them invoked `calculateSunTimes`. -/
noncomputable def runSunTrace (s : SunCache) : List Nat → SunCache × Nat
  | [] => (s, 0)
  | e :: es =>
      let st := sunTimesStep e s
      let rest := runSunTrace st.1 es
      (rest.1, (if st.2 then 1 else 0) + rest.2)

/-- A concrete controller state used to instantiate frame theorems. -/
def exampleState : ControllerState :=
  { pumpMode := fun _ => PumpMode.MODE_AUTO, prefsMode1 := 3, prefsMode2 := 3 }

/-- The descending scan of `isUK_DST` returns exactly the highest day in
25..31 whose civil weekday is Sunday (such a day always exists, since the
weekday walks through all seven residues over seven consecutive days). -/
theorem lastSundayOf_is_last (m y : Nat) : IsLastSunday m y (lastSundayOf m y) := by
  unfold IsLastSunday lastSundayOf civilWeekday
  set K := weekdayOffset m y with hK
  split_ifs with h31 h30 h29 h28 h27 h26 h25 <;>
    refine ⟨by omega, by omega, by omega, fun dd hd hlt => by omega⟩

/-- There is only one highest Sunday in the window. -/
theorem IsLastSunday_unique {m y a b : Nat}
    (ha : IsLastSunday m y a) (hb : IsLastSunday m y b) : a = b := by
  obtain ⟨ha25, ha31, haS, haMax⟩ := ha
  obtain ⟨hb25, hb31, hbS, hbMax⟩ := hb
  by_contra hne
  rcases Nat.lt_or_ge a b with h | h
  · exact haMax b (by omega) h hbS
  · exact hbMax a (by omega) (by omega) haS

/-- C1: the claim demands that an invalid temperature sample force the
decision to false in every mode, but the frost check of `shouldPumpBeOn`
inspects only the numeric value: with a stale reading of 10 °C carried by
an invalid sample, `MODE_ON` still yields true, so the code violates the
claimed hard lockout. -/
theorem C1_frost_lockout_ignores_validity :
    (TemperatureSample.mk 10 false).valid = false
  ∧ 3 ≤ (TemperatureSample.mk 10 false).valueCelsius
  ∧ shouldPumpBeOn PumpMode.MODE_ON false 0 1080
      (TemperatureSample.mk 10 false).valueCelsius = true :=
  ⟨rfl, by decide, by decide⟩

/-- C2: for a valid sample at or above the 3.0 °C frost threshold,
`shouldPumpBeOn` equals the mode table exactly (ON to true, OFF to false,
AUTO to the daytime flag, AUTO_EXTEND to daytime or now before sunset
plus 60), `isDaytime` holds iff sunrise ≤ now < sunset, and at sunset 1080
with daytime false the AUTO_EXTEND boundary is on at 1139 and off at
1140. -/
theorem C2_decide_matches_mode_table :
    (∀ (sr ss nowM : Int) (smp : TemperatureSample),
        smp.valid = true → 3 ≤ smp.valueCelsius →
        shouldPumpBeOn PumpMode.MODE_ON (isDaytime nowM sr ss) nowM ss
            smp.valueCelsius = true
      ∧ shouldPumpBeOn PumpMode.MODE_OFF (isDaytime nowM sr ss) nowM ss
            smp.valueCelsius = false
      ∧ shouldPumpBeOn PumpMode.MODE_AUTO (isDaytime nowM sr ss) nowM ss
            smp.valueCelsius = isDaytime nowM sr ss
      ∧ shouldPumpBeOn PumpMode.MODE_AUTO_EXTEND (isDaytime nowM sr ss) nowM ss
            smp.valueCelsius
          = (isDaytime nowM sr ss || decide (nowM < ss + 60)))
  ∧ (∀ nowM sr ss : Int, isDaytime nowM sr ss = true ↔ sr ≤ nowM ∧ nowM < ss)
  ∧ (∀ t : ℚ, 3 ≤ t →
        shouldPumpBeOn PumpMode.MODE_AUTO_EXTEND false 1139 1080 t = true
      ∧ shouldPumpBeOn PumpMode.MODE_AUTO_EXTEND false 1140 1080 t = false) := by
  refine ⟨?_, ?_, ?_⟩
  · intro sr ss nowM smp _ ht
    have hcond : ¬ ¬ (smp.valueCelsius ≥ 3) := not_not_intro ht
    refine ⟨?_, ?_, ?_, ?_⟩ <;> simp [shouldPumpBeOn, hcond]
  · intro nowM sr ss
    simp [isDaytime, ge_iff_le]
  · intro t ht
    have hcond : ¬ ¬ (t ≥ 3) := not_not_intro ht
    constructor <;> simp [shouldPumpBeOn, hcond]

/-- Instantiation of the C2 theorem at concrete inputs. -/
theorem C2_decide_matches_mode_table_witness :
    (TemperatureSample.mk 5 true).valid = true
  ∧ 3 ≤ (TemperatureSample.mk 5 true).valueCelsius
  ∧ shouldPumpBeOn PumpMode.MODE_AUTO (isDaytime 500 360 1080) 500 1080
      (TemperatureSample.mk 5 true).valueCelsius = isDaytime 500 360 1080
  ∧ (3 : ℚ) ≤ 5
  ∧ shouldPumpBeOn PumpMode.MODE_AUTO_EXTEND false 1139 1080 5 = true :=
  ⟨rfl, by decide,
   (C2_decide_matches_mode_table.1 360 1080 500 (TemperatureSample.mk 5 true)
      rfl (by decide)).2.2.1,
   by decide,
   (C2_decide_matches_mode_table.2.2 5 (by decide)).1⟩

/-- C4: `cycleMode` performs the fixed transition ON, OFF, AUTO,
AUTO_EXTEND, ON (each call sets channel `i` to exactly `nextMode` of its
current mode, so no other transition exists), and four successive calls on
a channel restore all in-memory modes. -/
theorem C4_mode_cycle_period_four :
    (nextMode PumpMode.MODE_ON = PumpMode.MODE_OFF
   ∧ nextMode PumpMode.MODE_OFF = PumpMode.MODE_AUTO
   ∧ nextMode PumpMode.MODE_AUTO = PumpMode.MODE_AUTO_EXTEND
   ∧ nextMode PumpMode.MODE_AUTO_EXTEND = PumpMode.MODE_ON)
  ∧ (∀ (s : ControllerState) (i : Fin 2),
      (cycleMode i s).pumpMode i = nextMode (s.pumpMode i))
  ∧ (∀ (s : ControllerState) (i : Fin 2),
      (cycleMode i (cycleMode i (cycleMode i (cycleMode i s)))).pumpMode
        = s.pumpMode) := by
  have key : ∀ (s : ControllerState) (i : Fin 2),
      (cycleMode i s).pumpMode
        = Function.update s.pumpMode i (nextMode (s.pumpMode i)) :=
    fun s i => rfl
  refine ⟨⟨rfl, rfl, rfl, rfl⟩, ?_, ?_⟩
  · intro s i
    rw [key, Function.update_same]
  · intro s i
    have h4 : ∀ m, nextMode (nextMode (nextMode (nextMode m))) = m := by
      intro m; cases m <;> rfl
    simp only [key, Function.update_same, Function.update_idem]
    rw [h4, Function.update_eq_self]

/-- C5: `loadPumpModes` normalizes any persisted byte outside 1..4 to
AUTO, independently per channel; every in-range byte loads as the mode
with that numeric value; 7 loads as AUTO and 1 loads as ON. -/
theorem C5_load_validates_per_channel :
    (∀ b1 b2 : Nat, b1 < 1 ∨ 4 < b1 →
        (loadPumpModes b1 b2).1 = PumpMode.MODE_AUTO)
  ∧ (∀ b1 b2 : Nat, b2 < 1 ∨ 4 < b2 →
        (loadPumpModes b1 b2).2 = PumpMode.MODE_AUTO)
  ∧ (∀ b1 b2 : Nat, 1 ≤ b1 → b1 ≤ 4 →
        pumpModeValue (loadPumpModes b1 b2).1 = b1)
  ∧ (∀ b1 b2 : Nat, 1 ≤ b2 → b2 ≤ 4 →
        pumpModeValue (loadPumpModes b1 b2).2 = b2)
  ∧ (∀ b1 c1 b2 : Nat, (loadPumpModes b1 b2).2 = (loadPumpModes c1 b2).2)
  ∧ (∀ b1 b2 c2 : Nat, (loadPumpModes b1 b2).1 = (loadPumpModes b1 c2).1)
  ∧ (∀ b2 : Nat, (loadPumpModes 7 b2).1 = PumpMode.MODE_AUTO)
  ∧ (∀ b2 : Nat, (loadPumpModes 1 b2).1 = PumpMode.MODE_ON) := by
  refine ⟨?_, ?_, ?_, ?_, fun _ _ _ => rfl, fun _ _ _ => rfl,
    fun _ => rfl, fun _ => rfl⟩
  · intro b1 b2 h
    simp only [loadPumpModes]
    split
    · rfl
    · rename_i hfalse
      exfalso
      simp only [Bool.or_eq_true, decide_eq_true_eq] at hfalse
      omega
  · intro b1 b2 h
    simp only [loadPumpModes]
    split
    · rfl
    · rename_i hfalse
      exfalso
      simp only [Bool.or_eq_true, decide_eq_true_eq] at hfalse
      omega
  · intro b1 b2 h1 h4
    interval_cases b1 <;> rfl
  · intro b1 b2 h1 h4
    interval_cases b2 <;> rfl

/-- Instantiation of the C5 theorem at concrete bytes. -/
theorem C5_load_validates_per_channel_witness :
    ((7 : Nat) < 1 ∨ 4 < (7 : Nat))
  ∧ (loadPumpModes 7 2).1 = PumpMode.MODE_AUTO
  ∧ (1 : Nat) ≤ 1 ∧ (1 : Nat) ≤ 4
  ∧ pumpModeValue (loadPumpModes 1 2).1 = 1 :=
  ⟨Or.inr (by decide),
   C5_load_validates_per_channel.1 7 2 (Or.inr (by decide)),
   by decide, by decide,
   C5_load_validates_per_channel.2.2.1 1 2 (by decide) (by decide)⟩

/-- C7: the relay outputs of a minute tick are identical whether the DST
flag is true or false; only the displayed local time changes (the local
hour at midnight UTC differs between the two runs, so the DST input is not
vacuous in the model). -/
theorem C7_relays_independent_of_dst :
    (∀ (e : Nat) (m0 m1 : PumpMode) (sr ss : Int) (t : ℚ),
        (minuteTick true e m0 m1 sr ss t).relay1
          = (minuteTick false e m0 m1 sr ss t).relay1
      ∧ (minuteTick true e m0 m1 sr ss t).relay2
          = (minuteTick false e m0 m1 sr ss t).relay2)
  ∧ (minuteTick true 0 PumpMode.MODE_AUTO PumpMode.MODE_AUTO 360 1080 5).localHour
      ≠ (minuteTick false 0 PumpMode.MODE_AUTO PumpMode.MODE_AUTO 360 1080 5).localHour := by
  exact ⟨fun _ _ _ _ _ _ => ⟨rfl, rfl⟩, by decide⟩

/-- C9: as long as every temperature fetch has failed, the boot sentinel
-100.0 survives in `currentTemperature`, and with that value
`shouldPumpBeOn` is false for every mode and every time input. -/
theorem C9_boot_sentinel_locks_pumps_out :
    ∀ (outcomes : List (Option ℚ)),
      (∀ o ∈ outcomes, o = none) →
      (runFetches initialTempState outcomes).currentTemperature = -100
      ∧ ∀ (m : PumpMode) (day : Bool) (now ss : Int),
          shouldPumpBeOn m day now ss
            (runFetches initialTempState outcomes).currentTemperature = false := by
  have htemp : ∀ (outcomes : List (Option ℚ)) (s : TempState),
      (∀ o ∈ outcomes, o = none) →
      (runFetches s outcomes).currentTemperature = s.currentTemperature := by
    intro outcomes
    induction outcomes with
    | nil => intro s _; rfl
    | cons o os ih =>
        intro s h
        have ho : o = none := h o (by simp)
        subst ho
        have hrest := ih (fetchTemperatureStep none s)
          (fun o hm => h o (by simp [hm]))
        simpa [runFetches, fetchTemperatureStep] using hrest
  intro outcomes h
  have h1 := htemp outcomes initialTempState h
  have h2 : (runFetches initialTempState outcomes).currentTemperature = -100 := by
    simpa [initialTempState] using h1
  refine ⟨h2, ?_⟩
  intro m day now ss
  rw [h2]
  unfold shouldPumpBeOn
  rw [if_pos (by norm_num)]

/-- Instantiation of the C9 theorem after two failed fetches. -/
theorem C9_boot_sentinel_locks_pumps_out_witness :
    (runFetches initialTempState [none, none]).currentTemperature = -100
  ∧ shouldPumpBeOn PumpMode.MODE_ON true 500 1080
      (runFetches initialTempState [none, none]).currentTemperature = false :=
  ⟨(C9_boot_sentinel_locks_pumps_out [none, none] (by simp)).1,
   (C9_boot_sentinel_locks_pumps_out [none, none] (by simp)).2
     PumpMode.MODE_ON true 500 1080⟩

/-- C10: `cycleMode i` leaves the other channel's in-memory mode
untouched, and the `savePumpModes` it performs rewrites both persisted
bytes, storing for the untouched channel exactly the byte of its existing
mode. -/
theorem C10_cycleMode_frame :
    ∀ (s : ControllerState) (i j : Fin 2), j ≠ i →
      (cycleMode i s).pumpMode j = s.pumpMode j
    ∧ (cycleMode i s).prefsMode1 = pumpModeValue ((cycleMode i s).pumpMode 0)
    ∧ (cycleMode i s).prefsMode2 = pumpModeValue ((cycleMode i s).pumpMode 1)
    ∧ (j = 0 → (cycleMode i s).prefsMode1 = pumpModeValue (s.pumpMode 0))
    ∧ (j = 1 → (cycleMode i s).prefsMode2 = pumpModeValue (s.pumpMode 1)) := by
  intro s i j hne
  have hother : Function.update s.pumpMode i (nextMode (s.pumpMode i)) j
      = s.pumpMode j := Function.update_noteq hne _ _
  refine ⟨hother, rfl, rfl, ?_, ?_⟩
  · intro hj; subst hj
    show pumpModeValue (Function.update s.pumpMode i (nextMode (s.pumpMode i)) 0)
      = pumpModeValue (s.pumpMode 0)
    rw [Function.update_noteq hne]
  · intro hj; subst hj
    show pumpModeValue (Function.update s.pumpMode i (nextMode (s.pumpMode i)) 1)
      = pumpModeValue (s.pumpMode 1)
    rw [Function.update_noteq hne]

/-- Instantiation of the C10 frame theorem at channel 0. -/
theorem C10_cycleMode_frame_witness :
    (1 : Fin 2) ≠ 0
  ∧ (cycleMode 0 exampleState).pumpMode 1 = exampleState.pumpMode 1
  ∧ (cycleMode 0 exampleState).prefsMode2
      = pumpModeValue (exampleState.pumpMode 1) :=
  ⟨by decide,
   (C10_cycleMode_frame exampleState 0 1 (by decide)).1,
   (C10_cycleMode_frame exampleState 0 1 (by decide)).2.2.2.2 rfl⟩

/-- C6: `isUK_DST` is false before March and after October, true strictly
between them, true in March exactly from the last Sunday (the highest day
in 25..31 whose civil weekday is Sunday), true in October exactly before
the last Sunday, and takes the claimed values on the four 2023 boundary
dates. -/
theorem C6_isUK_DST_rule :
    (∀ d m y : Nat, m < 3 ∨ 10 < m → isUK_DST d m y = false)
  ∧ (∀ d m y : Nat, 3 < m → m < 10 → isUK_DST d m y = true)
  ∧ (∀ d y ls : Nat, IsLastSunday 3 y ls → (isUK_DST d 3 y = true ↔ ls ≤ d))
  ∧ (∀ d y ls : Nat, IsLastSunday 10 y ls → (isUK_DST d 10 y = true ↔ d < ls))
  ∧ isUK_DST 25 3 2023 = false ∧ isUK_DST 26 3 2023 = true
  ∧ isUK_DST 28 10 2023 = true ∧ isUK_DST 29 10 2023 = false := by
  refine ⟨?_, ?_, ?_, ?_, by decide, by decide, by decide, by decide⟩
  · intro d m y h
    simp only [isUK_DST]
    split
    · rfl
    · rename_i hf
      exfalso
      simp only [Bool.or_eq_true, decide_eq_true_eq] at hf
      omega
  · intro d m y h3 h10
    have c1 : ¬ ((m < 3 || m > 10) = true) := by simp; omega
    have c2 : (m > 3 && m < 10) = true := by simp; omega
    simp only [isUK_DST]
    rw [if_neg c1, if_pos c2]
  · intro d y ls hls
    obtain rfl : ls = lastSundayOf 3 y :=
      IsLastSunday_unique hls (lastSundayOf_is_last 3 y)
    simp [isUK_DST, ge_iff_le]
  · intro d y ls hls
    obtain rfl : ls = lastSundayOf 10 y :=
      IsLastSunday_unique hls (lastSundayOf_is_last 10 y)
    simp [isUK_DST]

/-- Instantiation of the C6 theorem at concrete dates. -/
theorem C6_isUK_DST_rule_witness :
    ((1 : Nat) < 3 ∨ 10 < (1 : Nat)) ∧ isUK_DST 10 1 2024 = false
  ∧ 3 < (7 : Nat) ∧ (7 : Nat) < 10 ∧ isUK_DST 15 7 2024 = true
  ∧ IsLastSunday 3 2023 26 ∧ (isUK_DST 26 3 2023 = true ↔ 26 ≤ 26) :=
  ⟨Or.inl (by decide),
   C6_isUK_DST_rule.1 10 1 2024 (Or.inl (by decide)),
   by decide, by decide,
   C6_isUK_DST_rule.2.1 15 7 2024 (by decide) (by decide),
   ⟨by decide, by decide, by decide, by decide⟩,
   C6_isUK_DST_rule.2.2.1 26 2023 26 ⟨by decide, by decide, by decide, by decide⟩⟩

/-- C8: in every tick, `calculateSunTimes` is invoked exactly when the
derived (day, month, year) differs from the cached triple; after the tick
the cache equals the derived date; a tick that does not recompute leaves
the whole cache (daylight window included) unchanged; and over any run of
ticks all observing one calendar date, at most one invocation occurs. -/
theorem C8_sun_recompute_once_per_date :
    (∀ (e : Nat) (s : SunCache),
        (sunTimesStep e s).2 = true ↔
          ¬ (((epochToDate e).1 : Int) = s.lastDay
             ∧ ((epochToDate e).2.1 : Int) = s.lastMonth
             ∧ ((epochToDate e).2.2 : Int) = s.lastYear))
  ∧ (∀ (e : Nat) (s : SunCache),
        (sunTimesStep e s).1.lastDay = ((epochToDate e).1 : Int)
      ∧ (sunTimesStep e s).1.lastMonth = ((epochToDate e).2.1 : Int)
      ∧ (sunTimesStep e s).1.lastYear = ((epochToDate e).2.2 : Int))
  ∧ (∀ (e : Nat) (s : SunCache),
        (sunTimesStep e s).2 = false → (sunTimesStep e s).1 = s)
  ∧ (∀ (s : SunCache) (e : Nat) (es : List Nat),
        (∀ x ∈ es, epochToDate x = epochToDate e) →
        (runSunTrace s (e :: es)).2 ≤ 1) := by
  have hstep_eq : ∀ (e : Nat) (s : SunCache),
      (((epochToDate e).1 : Int) = s.lastDay
        ∧ ((epochToDate e).2.1 : Int) = s.lastMonth
        ∧ ((epochToDate e).2.2 : Int) = s.lastYear) →
      sunTimesStep e s = (s, false) := by
    intro e s hc
    simp only [sunTimesStep]
    rw [if_neg]
    push_neg
    exact hc
  have hstep_ne : ∀ (e : Nat) (s : SunCache),
      ¬ (((epochToDate e).1 : Int) = s.lastDay
        ∧ ((epochToDate e).2.1 : Int) = s.lastMonth
        ∧ ((epochToDate e).2.2 : Int) = s.lastYear) →
      (sunTimesStep e s).2 = true
      ∧ (sunTimesStep e s).1.lastDay = ((epochToDate e).1 : Int)
      ∧ (sunTimesStep e s).1.lastMonth = ((epochToDate e).2.1 : Int)
      ∧ (sunTimesStep e s).1.lastYear = ((epochToDate e).2.2 : Int) := by
    intro e s hc
    have hd : ((epochToDate e).1 : Int) ≠ s.lastDay
        ∨ ((epochToDate e).2.1 : Int) ≠ s.lastMonth
        ∨ ((epochToDate e).2.2 : Int) ≠ s.lastYear := by tauto
    simp only [sunTimesStep]
    rw [if_pos hd]
    exact ⟨rfl, rfl, rfl, rfl⟩
  have hcache : ∀ (e : Nat) (s : SunCache),
      (sunTimesStep e s).1.lastDay = ((epochToDate e).1 : Int)
    ∧ (sunTimesStep e s).1.lastMonth = ((epochToDate e).2.1 : Int)
    ∧ (sunTimesStep e s).1.lastYear = ((epochToDate e).2.2 : Int) := by
    intro e s
    by_cases hc : ((epochToDate e).1 : Int) = s.lastDay
        ∧ ((epochToDate e).2.1 : Int) = s.lastMonth
        ∧ ((epochToDate e).2.2 : Int) = s.lastYear
    · rw [hstep_eq e s hc]
      exact ⟨hc.1.symm, hc.2.1.symm, hc.2.2.symm⟩
    · exact (hstep_ne e s hc).2
  have hzero : ∀ (es : List Nat) (s : SunCache),
      (∀ x ∈ es, ((epochToDate x).1 : Int) = s.lastDay
          ∧ ((epochToDate x).2.1 : Int) = s.lastMonth
          ∧ ((epochToDate x).2.2 : Int) = s.lastYear) →
      (runSunTrace s es).2 = 0 := by
    intro es
    induction es with
    | nil => intro s _; rfl
    | cons x xs ih =>
        intro s h
        have hx := h x (by simp)
        have hstep : sunTimesStep x s = (s, false) := hstep_eq x s hx
        simp only [runSunTrace, hstep]
        simpa using ih s (fun z hz => h z (by simp [hz]))
  refine ⟨?_, hcache, ?_, ?_⟩
  · intro e s
    by_cases hc : ((epochToDate e).1 : Int) = s.lastDay
        ∧ ((epochToDate e).2.1 : Int) = s.lastMonth
        ∧ ((epochToDate e).2.2 : Int) = s.lastYear
    · rw [hstep_eq e s hc]
      simp [hc]
    · simp [(hstep_ne e s hc).1, hc]
  · intro e s hfalse
    by_cases hc : ((epochToDate e).1 : Int) = s.lastDay
        ∧ ((epochToDate e).2.1 : Int) = s.lastMonth
        ∧ ((epochToDate e).2.2 : Int) = s.lastYear
    · rw [hstep_eq e s hc]
    · exact absurd hfalse (by simp [(hstep_ne e s hc).1])
  · intro s e es h
    have hz : (runSunTrace (sunTimesStep e s).1 es).2 = 0 := by
      apply hzero
      intro x hx
      have hd := h x hx
      have hc := hcache e s
      rw [hd]
      exact ⟨hc.1.symm, hc.2.1.symm, hc.2.2.symm⟩
    simp only [runSunTrace, hz]
    split <;> omega

/-- Instantiation of the C8 trace bound on a two-tick run observing one
date. -/
theorem C8_sun_recompute_once_per_date_witness :
    (runSunTrace (SunCache.mk (-1) (-1) (-1) 360 1080) (0 :: [0])).2 ≤ 1 :=
  C8_sun_recompute_once_per_date.2.2.2 (SunCache.mk (-1) (-1) (-1) 360 1080) 0 [0]
    (fun x hx => by rw [List.mem_singleton.mp hx])

/-- Tangent bound from `|sin x| ≤ |x|` and the quadratic lower bound on
the cosine. -/
theorem abs_tan_le_quad {x c : ℝ} (hx : |x| ≤ c) (hc : c ^ 2 < 2) :
    |Real.tan x| ≤ c / (1 - c ^ 2 / 2) := by
  have hc0 : 0 ≤ c := le_trans (abs_nonneg x) hx
  have hx2 : x ^ 2 ≤ c ^ 2 := by
    calc x ^ 2 = |x| ^ 2 := (sq_abs x).symm
    _ ≤ c ^ 2 := pow_le_pow_left₀ (abs_nonneg x) hx 2
  have hcos : 1 - c ^ 2 / 2 ≤ Real.cos x :=
    le_trans (by linarith) Real.one_sub_sq_div_two_le_cos
  have hden : 0 < 1 - c ^ 2 / 2 := by linarith
  have hcospos : 0 < Real.cos x := lt_of_lt_of_le hden hcos
  have hsin : |Real.sin x| ≤ c := le_trans Real.abs_sin_le_abs hx
  rw [Real.tan_eq_sin_div_cos, abs_div, abs_of_pos hcospos]
  exact div_le_div₀ hc0 hsin hden hcos

/-- The inverse cosine of 0.686 exceeds 0.7 (since cos 0.7 > 0.686). -/
theorem arccos_686_gt : (0.7 : ℝ) < Real.arccos 0.686 := by
  by_contra h
  push_neg at h
  have h1 : Real.cos 0.7 ≤ Real.cos (Real.arccos 0.686) :=
    Real.cos_le_cos_of_nonneg_of_le_pi (Real.arccos_nonneg _)
      (le_trans (by norm_num) (le_of_lt Real.pi_gt_three)) h
  rw [Real.cos_arccos (by norm_num) (by norm_num)] at h1
  have h2 : (1 : ℝ) - (0.7 : ℝ) ^ 2 / 2 ≤ Real.cos 0.7 :=
    Real.one_sub_sq_div_two_le_cos
  norm_num at h1 h2
  linarith

/-- At the configured latitude, the raw hour-angle cosine
`tan(latR) * tan(decR)` stays within 0.686 of zero for every declination
the single-harmonic model can produce. -/
theorem cosH_abs_le (t : ℝ) (ht : |t| ≤ 1) :
    |Real.tan (latitude * DEG_TO_RAD) * Real.tan (23.45 * t * DEG_TO_RAD)| ≤ 0.686 := by
  have hπu := Real.pi_lt_d4
  have hπl := Real.pi_gt_d4
  have hπ0 := Real.pi_pos
  have hlat : |latitude * DEG_TO_RAD| ≤ 0.90561 := by
    unfold latitude DEG_TO_RAD
    rw [abs_of_nonneg (by positivity)]
    linarith
  have htanlat : |Real.tan (latitude * DEG_TO_RAD)| ≤ 1.5352 :=
    le_trans (abs_tan_le_quad hlat (by norm_num)) (by norm_num)
  have hdec : |23.45 * t * DEG_TO_RAD| ≤ 0.40929 := by
    unfold DEG_TO_RAD
    rw [abs_mul, abs_mul]
    have ha : |(23.45 : ℝ)| = 23.45 := abs_of_nonneg (by norm_num)
    have hb : |Real.pi / 180| = Real.pi / 180 := abs_of_nonneg (by positivity)
    rw [ha, hb]
    have h1 : 23.45 * |t| ≤ 23.45 := by nlinarith [ht]
    have h2 : 23.45 * |t| * (Real.pi / 180) ≤ 23.45 * (Real.pi / 180) :=
      mul_le_mul_of_nonneg_right h1 (by positivity)
    have h3 : 23.45 * (Real.pi / 180) ≤ 0.40929 := by linarith
    linarith
  have htandec : |Real.tan (23.45 * t * DEG_TO_RAD)| ≤ 0.44671 :=
    le_trans (abs_tan_le_quad hdec (by norm_num)) (by norm_num)
  calc |Real.tan (latitude * DEG_TO_RAD) * Real.tan (23.45 * t * DEG_TO_RAD)|
      = |Real.tan (latitude * DEG_TO_RAD)| * |Real.tan (23.45 * t * DEG_TO_RAD)| :=
        abs_mul _ _
    _ ≤ 1.5352 * 0.44671 :=
        mul_le_mul htanlat htandec (abs_nonneg _) (by norm_num)
    _ ≤ 0.686 := by norm_num

/-- The C truncation-plus-wrap step keeps a real value already in
[0, 1440) inside [0, 1440). -/
theorem cIntCast_wrap_range {x : ℝ} (h0 : 0 ≤ x) (h1 : x < 1440) :
    0 ≤ (if cIntCast x < 0 then cIntCast x + 1440 else cIntCast x)
  ∧ (if cIntCast x < 0 then cIntCast x + 1440 else cIntCast x) < 1440 := by
  have hfl : cIntCast x = ⌊x⌋ := if_pos h0
  have hge : 0 ≤ ⌊x⌋ := Int.floor_nonneg.mpr h0
  have hlt : ⌊x⌋ < 1440 := by
    rw [Int.floor_lt]
    exact_mod_cast h1
  rw [hfl, if_neg (by omega)]
  exact ⟨hge, hlt⟩

/-- C3: for every date input and the configured coordinates, both minutes
values produced by `calculateSunTimes` lie in [0, 1440). -/
theorem C3_calculateSunTimes_range (d m y : Nat) :
    0 ≤ (calculateSunTimes d m y).1 ∧ (calculateSunTimes d m y).1 < 1440
  ∧ 0 ≤ (calculateSunTimes d m y).2 ∧ (calculateSunTimes d m y).2 < 1440 := by
  have hπu := Real.pi_lt_d4
  have hπl := Real.pi_gt_d4
  have hπ0 := Real.pi_pos
  have hsin1 : |Real.sin ((360 / 365) * ((dayOfYearN d m y : ℝ) - 81) * DEG_TO_RAD)| ≤ 1 :=
    abs_le.mpr ⟨Real.neg_one_le_sin _, Real.sin_le_one _⟩
  set t := Real.sin ((360 / 365) * ((dayOfYearN d m y : ℝ) - 81) * DEG_TO_RAD) with hT
  have hcos := cosH_abs_le t hsin1
  set cosH0 : ℝ :=
    -Real.tan (latitude * DEG_TO_RAD) * Real.tan (23.45 * t * DEG_TO_RAD) with hH0
  have hH0abs : |cosH0| ≤ 0.686 := by
    rw [hH0, neg_mul, abs_neg]
    exact hcos
  have hH0u : cosH0 ≤ 0.686 := le_of_abs_le hH0abs
  have hH0l : -0.686 ≤ cosH0 := neg_le_of_abs_le hH0abs
  have hclamp1 : (if cosH0 > 1 then (1 : ℝ) else cosH0) = cosH0 :=
    if_neg (by push_neg; linarith)
  have hclamp2 : (if cosH0 < -1 then (-1 : ℝ) else cosH0) = cosH0 :=
    if_neg (by push_neg; linarith)
  have hRpos : (0 : ℝ) ≤ RAD_TO_DEG := by
    unfold RAD_TO_DEG
    positivity
  have hA0 : 0 ≤ Real.arccos cosH0 * RAD_TO_DEG :=
    mul_nonneg (Real.arccos_nonneg _) hRpos
  have hAub : Real.arccos cosH0 * RAD_TO_DEG < 139.9 := by
    have h1 : Real.arccos cosH0 ≤ Real.arccos (-0.686) := by
      rcases eq_or_lt_of_le hH0l with heq | hlt
      · exact le_of_eq (congrArg Real.arccos heq.symm)
      · exact le_of_lt (Real.strictAntiOn_arccos
          (Set.mem_Icc.mpr ⟨by norm_num, by norm_num⟩)
          (Set.mem_Icc.mpr ⟨by linarith, by linarith⟩) hlt)
    have h2 : Real.arccos (-0.686) = Real.pi - Real.arccos 0.686 := by
      rw [show ((-0.686 : ℝ)) = -(0.686 : ℝ) by norm_num, Real.arccos_neg]
    have h3 := arccos_686_gt
    have h4 : Real.arccos cosH0 ≤ Real.pi - 0.7 := by
      rw [h2] at h1
      linarith
    have h5 : Real.arccos cosH0 * RAD_TO_DEG ≤ (Real.pi - 0.7) * (180 / Real.pi) := by
      have : RAD_TO_DEG = 180 / Real.pi := rfl
      rw [this]
      exact mul_le_mul_of_nonneg_right h4 (by positivity)
    have h6 : (Real.pi - 0.7) * (180 / Real.pi) = 180 - 126 / Real.pi := by
      field_simp
      ring
    have h7 : (126 : ℝ) / 3.1416 < 126 / Real.pi :=
      div_lt_div_of_pos_left (by norm_num) hπ0 hπu
    have h8 : (40.1 : ℝ) < 126 / 3.1416 := by norm_num
    linarith
  have hlon : longitude = (-2.0436 : ℝ) := rfl
  have hrise0 : (0 : ℝ) ≤ 720 - 4 * (longitude + Real.arccos cosH0 * RAD_TO_DEG) := by
    rw [hlon]
    linarith
  have hrise1 : 720 - 4 * (longitude + Real.arccos cosH0 * RAD_TO_DEG) < 1440 := by
    rw [hlon]
    linarith
  have hset0 : (0 : ℝ) ≤ 720 - 4 * (longitude - Real.arccos cosH0 * RAD_TO_DEG) := by
    rw [hlon]
    linarith
  have hset1 : 720 - 4 * (longitude - Real.arccos cosH0 * RAD_TO_DEG) < 1440 := by
    rw [hlon]
    linarith
  have r1 := cIntCast_wrap_range hrise0 hrise1
  have r2 := cIntCast_wrap_range hset0 hset1
  simp only [calculateSunTimes, ← hT, ← hH0, hclamp1, hclamp2]
  exact ⟨r1.1, r1.2, r2.1, r2.2⟩

end PondPump
